import Mathlib

/-!
Shallow embedding of the Mario expert agent (`scripts/mario_expert.py`):
the perception helpers of `MarioController`, the spatial predicates and the
priority rule chain of `MarioExpert.choose_action`, the action queue consumed
by `MarioExpert.step`, and the button dispatch of `MarioController.run_action`.

Python's fallible list indexing is modelled by `Option`-valued access
(`none` = `IndexError`), negative indices wrapping from the end exactly as in
Python.  A raised exception inside `choose_action` is modelled by
`Except.error st`, where `st` is the agent state as mutated up to the point
of the raise (Python mutations performed before the raise persist).
-/

namespace MarioModel

/-- `Coordinate` dataclass of the source: integer x/y pair. -/
structure Coordinate where
  x : Int
  y : Int
deriving DecidableEq, Repr

/-- One slot of the 10-slot object table at 0xD100: the object-type byte and
the raw y/x position bytes read at offsets +2 and +3. -/
structure ObjSlot where
  objType : Nat
  ybyte : Nat
  xbyte : Nat
deriving DecidableEq, Repr

/-- Everything `choose_action` reads from the environment in one cycle:
the 16x20 `game_area` grid, the raw scroll x (`game_state()["x_position"]`),
the raw Mario position bytes (0xC202 / 0xC201), the object table, and the
on-ground flag byte (0xC20A). -/
structure Snapshot where
  gameArea : List (List Nat)
  marioX : Nat
  rawMarioX : Nat
  rawMarioY : Nat
  objTable : List ObjSlot
  onGroundFlag : Nat
deriving DecidableEq, Repr

/-- The mutable fields of `MarioExpert`: the pending action queue, the
per-cycle enemy observation list, and the cross-cycle flags. -/
structure ExpertState where
  actions : List String
  enemies : List Coordinate
  above_ground : Bool
  stuck : Bool
  prevX : Int
deriving DecidableEq, Repr

/-- Initial class attributes of `MarioExpert`:
`actions = []`, `enemies = []`, `above_ground = False`, `stuck = False`,
`prevX = -1`. -/
def initState : ExpertState :=
  { actions := [], enemies := [], above_ground := false, stuck := false,
    prevX := -1 }

/-- Python list indexing: a non-negative index past the end is an
`IndexError` (`none`); a negative index wraps once from the end, and an
`IndexError` (`none`) if it still falls before the start. -/
def pyGet (l : List α) (i : Int) : Option α :=
  if 0 ≤ i then l.get? i.toNat
  else if 0 ≤ (l.length : Int) + i then l.get? ((l.length : Int) + i).toNat
  else none

/-- `game_area[r][c]` with Python indexing semantics in both dimensions. -/
def pyGet2 (ga : List (List Nat)) (r c : Int) : Option Nat :=
  (pyGet ga r).bind (fun row => pyGet row c)

/-- Evaluate `game_area[r][c] == v`; `none` models an `IndexError`. -/
def cellEq (ga : List (List Nat)) (r c : Int) (v : Nat) : Option Bool :=
  (pyGet2 ga r c).map (fun x => x == v)

/-- Python short-circuit `and` over possibly-raising boolean expressions. -/
def pyAnd (a b : Option Bool) : Option Bool :=
  match a with
  | none => none
  | some false => some false
  | some true => b

/-- Python short-circuit `or` over possibly-raising boolean expressions. -/
def pyOr (a b : Option Bool) : Option Bool :=
  match a with
  | none => none
  | some true => some true
  | some false => b

/-- A Python `for`-loop that returns `True` at the first index whose test is
true and falls through to `False`; `none` propagates a raise. -/
def anyLoop (f : α → Option Bool) : List α → Option Bool
  | [] => some false
  | i :: rest =>
    match f i with
    | none => none
    | some true => some true
    | some false => anyLoop f rest

/-! ## Perception (`MarioController`) -/

/-- `get_mario_pos`: raw position bytes with the fixed +1 calibration. -/
def get_mario_pos (s : Snapshot) : Coordinate :=
  ⟨(s.rawMarioX : Int) + 1, (s.rawMarioY : Int) + 1⟩

/-- `get_obj_pos`: scan the first 10 slots of the object table for the first
slot whose type byte matches; return `(x, y - 1)` for it, else the sentinel
`(0, 0)`. -/
def get_obj_pos (table : List ObjSlot) (req : Nat) : Coordinate :=
  match (table.take 10).find? (fun slot => slot.objType == req) with
  | some slot => ⟨(slot.xbyte : Int), (slot.ybyte : Int) - 1⟩
  | none => ⟨0, 0⟩

/-- The enemy type bytes of `EnemyMap`: GOOMBA, NOKOBON, BEE. -/
def enemyKinds : List Nat := [0x00, 0x04, 0x29]

/-- `is_enemy_near`: the coordinates appended to `self.enemies` this cycle —
for each tracked kind, its `get_obj_pos` result when both components are
non-zero. -/
def nearEnemies (table : List ObjSlot) : List Coordinate :=
  (enemyKinds.map (get_obj_pos table)).filter
    (fun p => (p.x != 0) && (p.y != 0))

/-- Column index of the first cell equal to the player glyph (code 1) in a
row, scanning left to right (the inner loop of the grid scans). -/
def glyphIdxInRow : List Nat → Option Nat
  | [] => none
  | c :: rest =>
    if c == 1 then some 0 else (glyphIdxInRow rest).map (· + 1)

/-- Row-major scan for the first cell equal to the player glyph (code 1);
returns its (row, column).  The source iterates the inner loop over
`len(game_area[0])` columns, which on the rectangular grids produced by the
environment is exactly a scan of each row. -/
def findGlyph : List (List Nat) → Option (Nat × Nat)
  | [] => none
  | row :: rest =>
    match glyphIdxInRow row with
    | some j => some (0, j)
    | none => (findGlyph rest).map (fun p => (p.1 + 1, p.2))

/-- `get_ground_y`: `i + 2` for the first row `i` containing the glyph code
1, else the sentinel `-1`. -/
def get_ground_y (ga : List (List Nat)) : Int :=
  match findGlyph ga with
  | some p => (p.1 : Int) + 2
  | none => -1

/-- `get_mario_in_game_area`: `(j + 1, i + 1)` for the first grid cell
`(i, j)` holding the glyph code 1; the source returns the integer `-1` when
no cell matches, modelled as `none`. -/
def get_mario_in_game_area (ga : List (List Nat)) : Option Coordinate :=
  (findGlyph ga).map (fun p => ⟨(p.2 : Int) + 1, (p.1 : Int) + 1⟩)

/-- `is_mario_jumping`: the on-ground flag byte equals `0x00`. -/
def is_mario_jumping (s : Snapshot) : Bool :=
  s.onGroundFlag == 0x00

/-- Loop body of `is_up_clear` over offsets `i = 1..4`: return `False` at
the first row where column 14 or column 13 holds code 15. -/
def upClearLoop (ga : List (List Nat)) (gy : Int) : List Int → Option Bool
  | [] => some true
  | i :: rest =>
    match pyOr (cellEq ga (gy - i) 14 15) (cellEq ga (gy - i) 13 15) with
    | none => none
    | some true => some false
    | some false => upClearLoop ga gy rest

/-- `is_up_clear`: the four rows above `get_ground_y` are free of code 15 in
columns 13 and 14. -/
def is_up_clear (ga : List (List Nat)) : Option Bool :=
  upClearLoop ga (get_ground_y ga) [1, 2, 3, 4]

/-- `can_jump`: not airborne and `is_up_clear`. -/
def can_jump (s : Snapshot) : Option Bool :=
  if is_mario_jumping s then some false
  else is_up_clear s.gameArea

/-- Outcome of one outer-loop row of `get_obstacle_height`. -/
inductive RowOutcome where
  | crash
  | ret
  | inc
  | skip
deriving DecidableEq, Repr

/-- One row `i` of `get_obstacle_height`'s outer loop: the inner loop runs
`j` from `mario_pos.x` to `cols - 1`; at its first cell a block (10 or 14)
counts the row and breaks, any other value returns the accumulated height
immediately; an empty inner range skips the row. -/
def heightRowOutcome (ga : List (List Nat)) (cols : Nat) (i x : Int) :
    RowOutcome :=
  if (cols : Int) ≤ x then .skip
  else
    match pyGet2 ga i x with
    | none => .crash
    | some v => if v == 10 || v == 14 then .inc else .ret

/-- The outer loop of `get_obstacle_height` over rows `mario_pos.y` down to
1; falling off the loop end returns Python `None` (`some none`), a raise is
the outer `none`. -/
def heightLoop (ga : List (List Nat)) (cols : Nat) (x : Int) :
    List Int → Nat → Option (Option Nat)
  | [], _ => some none
  | i :: rest, height =>
    match heightRowOutcome ga cols i x with
    | .crash => none
    | .ret => some (some height)
    | .inc => heightLoop ga cols x rest (height + 1)
    | .skip => heightLoop ga cols x rest height

/-- `range(y, 0, -1)` as a list of `Int`: `[y, y-1, ..., 1]`. -/
def downRange (y : Int) : List Int :=
  (List.range y.toNat).map (fun k => y - (k : Int))

/-- `get_obstacle_height`: `some (some h)` when a `return height` executes,
`some none` when the loop completes without returning (Python `None`),
`none` when the scan raises (glyph absent, empty grid, or an out-of-range
row access). -/
def get_obstacle_height (s : Snapshot) : Option (Option Nat) :=
  match get_mario_in_game_area s.gameArea with
  | none => none
  | some p =>
    match s.gameArea.head? with
    | none => none
    | some row0 =>
      heightLoop s.gameArea row0.length p.x (downRange p.y) 0

/-! ## Spatial predicates (`MarioExpert`) -/

/-- `is_enemy_front`: some recorded enemy within 5 rows vertically and
strictly ahead within `safety_distance` columns
(`safety_distance >= enemy.x - mario.x > 0`). -/
def is_enemy_front (enemies : List Coordinate) (mario : Coordinate)
    (safety_distance : Int) : Bool :=
  enemies.any (fun e =>
    decide ((mario.y - e.y).natAbs ≤ 5) &&
    decide (e.x - mario.x ≤ safety_distance) && decide (0 < e.x - mario.x))

/-- `is_enemy_up`: some recorded enemy strictly above and within
`safety_distance` columns (`enemy.x - mario.x <= safety_distance`). -/
def is_enemy_up (enemies : List Coordinate) (mario : Coordinate)
    (safety_distance : Int) : Bool :=
  enemies.any (fun e =>
    decide (e.y < mario.y) && decide (e.x - mario.x ≤ safety_distance))

/-- `is_moving_enemy_front`: scan rows `mario.y - i` for `i = -2..3` and
columns `mario.x + j` for `j = 2..8` for the airborne-hazard glyph 18.
Called with the integer `-1` (glyph absent, modelled `none`) the attribute
access raises. -/
def is_moving_enemy_front (ga : List (List Nat)) (mp : Option Coordinate) :
    Option Bool :=
  match mp with
  | none => none
  | some p =>
    anyLoop
      (fun i =>
        anyLoop (fun j => cellEq ga (p.y - i) (p.x + (j : Int)) 18)
          [2, 3, 4, 5, 6, 7, 8])
      [-2, -1, 0, 1, 2, 3]

/-- `is_enemy_below`: scan rows `mario.y + i` for `i = 0..2` and columns
`mario.x + j` for `j = 0..4` for the ground-hazard glyph 15. -/
def is_enemy_below (ga : List (List Nat)) (mp : Option Coordinate) :
    Option Bool :=
  match mp with
  | none => none
  | some p =>
    anyLoop
      (fun i =>
        anyLoop (fun j => cellEq ga (p.y + (i : Int)) (p.x + (j : Int)) 15)
          [0, 1, 2, 3, 4])
      [0, 1, 2]

/-- `is_obstacle_ahead_in_distance`: explicit `mario_pos == -1` check
returning `False`; otherwise for `i = 0..distance-1` test the cells at the
player row and one row above column `mario.x + i` for block codes 10 and 14,
in the source's evaluation order. -/
def is_obstacle_ahead_in_distance (ga : List (List Nat))
    (mp : Option Coordinate) (distance : Nat) : Option Bool :=
  match mp with
  | none => some false
  | some p =>
    anyLoop
      (fun i =>
        pyOr (cellEq ga (p.y - 1) (p.x + (i : Int)) 10)
          (pyOr (cellEq ga p.y (p.x + (i : Int)) 10)
            (pyOr (cellEq ga (p.y - 1) (p.x + (i : Int)) 14)
              (cellEq ga p.y (p.x + (i : Int)) 14))))
      (List.range distance)

/-- `is_gap_ahead`: one of the next 3 forward columns is empty (code 0) at
the fixed bottom row 15. -/
def is_gap_ahead (ga : List (List Nat)) (mp : Option Coordinate) :
    Option Bool :=
  match mp with
  | none => none
  | some p =>
    anyLoop (fun i => cellEq ga 15 (p.x + (i : Int)) 0) (List.range 3)

/-- `is_jumpable_block_ahead`: gated by `can_jump`, then the source's
seven-cell disjunction of codes 13/12/10 in a short forward/upward window. -/
def is_jumpable_block_ahead (s : Snapshot) (mp : Option Coordinate) :
    Option Bool :=
  match can_jump s with
  | none => none
  | some false => some false
  | some true =>
    match mp with
    | none => none
    | some p =>
      let ga := s.gameArea
      pyOr (cellEq ga (p.y - 3) (p.x + 4) 13)
        (pyOr (cellEq ga (p.y - 4) (p.x + 3) 13)
          (pyOr (cellEq ga (p.y - 3) (p.x + 4) 12)
            (pyOr (cellEq ga (p.y - 4) (p.x + 3) 12)
              (pyOr (cellEq ga (p.y - 3) (p.x + 4) 10)
                (pyOr (cellEq ga (p.y - 4) (p.x + 3) 10)
                  (cellEq ga (p.y - 2) (p.x + 3) 10))))))

/-- `is_stair`: the single cell one row above, one column ahead holds the
block code 10. -/
def is_stair (ga : List (List Nat)) (mp : Option Coordinate) : Option Bool :=
  match mp with
  | none => none
  | some p => cellEq ga (p.y - 1) (p.x + 1) 10

/-- `is_stuck`: gated by `can_jump`, then the boxed-in three-cell signature
`ga[y-1][x+1] == 10 and ga[y+1][x+1] == 10 and ga[y][x+7] == 10`. -/
def is_stuck (s : Snapshot) (mp : Option Coordinate) : Option Bool :=
  match can_jump s with
  | none => none
  | some false => some false
  | some true =>
    match mp with
    | none => none
    | some p =>
      let ga := s.gameArea
      pyAnd (cellEq ga (p.y - 1) (p.x + 1) 10)
        (pyAnd (cellEq ga (p.y + 1) (p.x + 1) 10)
          (cellEq ga p.y (p.x + 7) 10))

/-- `is_block_ending`: one of the three cells under/behind the player
(`[y+1][x+2]`, `[y+1][x+1]`, `[y+1][x]`) is empty (code 0). -/
def is_block_ending (ga : List (List Nat)) (mp : Option Coordinate) :
    Option Bool :=
  match mp with
  | none => none
  | some p =>
    pyOr (cellEq ga (p.y + 1) (p.x + 2) 0)
      (pyOr (cellEq ga (p.y + 1) (p.x + 1) 0) (cellEq ga (p.y + 1) p.x 0))

/-- `is_jump_safe`: gated by `can_jump`, then `False` when one of the cells
at the player row, columns `x+7`, `x+8`, `x+6` (source order) holds the
ground-hazard glyph 15, else `True`. -/
def is_jump_safe (s : Snapshot) (mp : Option Coordinate) : Option Bool :=
  match can_jump s with
  | none => none
  | some false => some false
  | some true =>
    match mp with
    | none => none
    | some p =>
      let ga := s.gameArea
      match pyOr (cellEq ga p.y (p.x + 7) 15)
          (pyOr (cellEq ga p.y (p.x + 8) 15) (cellEq ga p.y (p.x + 6) 15)) with
      | none => none
      | some true => some false
      | some false => some true

/-! ## Button dispatch (`MarioController.run_action`) -/

/-- The `pyboy.utils.WindowEvent` values the controller dispatches. -/
inductive WEvent where
  | PRESS_ARROW_DOWN
  | PRESS_ARROW_LEFT
  | PRESS_ARROW_RIGHT
  | PRESS_ARROW_UP
  | PRESS_BUTTON_A
  | PRESS_BUTTON_B
  | RELEASE_ARROW_DOWN
  | RELEASE_ARROW_LEFT
  | RELEASE_ARROW_RIGHT
  | RELEASE_ARROW_UP
  | RELEASE_BUTTON_A
  | RELEASE_BUTTON_B
  | RELEASE_SPEED_UP
deriving DecidableEq, Repr

/-- The `valid_actions` press dictionary of `MarioController.__init__`. -/
def valid_actions (a : String) : Option WEvent :=
  if a == "down" then some .PRESS_ARROW_DOWN
  else if a == "left" then some .PRESS_ARROW_LEFT
  else if a == "right" then some .PRESS_ARROW_RIGHT
  else if a == "up" then some .PRESS_ARROW_UP
  else if a == "jump" then some .PRESS_BUTTON_A
  else if a == "slide" then some .PRESS_BUTTON_B
  else if a == "speed" then some .RELEASE_SPEED_UP
  else none

/-- The `release_button` dictionary of `MarioController.__init__`. -/
def release_button (a : String) : Option WEvent :=
  if a == "down" then some .RELEASE_ARROW_DOWN
  else if a == "left" then some .RELEASE_ARROW_LEFT
  else if a == "right" then some .RELEASE_ARROW_RIGHT
  else if a == "up" then some .RELEASE_ARROW_UP
  else if a == "jump" then some .RELEASE_BUTTON_A
  else if a == "slide" then some .RELEASE_BUTTON_B
  else if a == "speed" then some .RELEASE_SPEED_UP
  else none

/-- What one `run_action` call dispatches: the `send_input` events before
the hold, the number of `pyboy.tick()` steps held, and the `send_input`
events after the hold. -/
structure RunTrace where
  pressEvents : List WEvent
  holdSteps : Nat
  releaseEvents : List WEvent
deriving DecidableEq, Repr

/-- `run_action(action, tick_count)`: resolve `tick_count=None` to
`act_freq`; send the press event (plus a press of `"right"` when the action
is `"jump"`), tick for the resolved duration, then send
`release_button[action]` — plus, for `"jump"`, `valid_actions["right"]`
again (the source dispatches the press dictionary's entry at release time).
`none` models a `KeyError` on an unknown action string. -/
def run_action (act_freq : Nat) (action : String) (tick_count : Option Nat) :
    Option RunTrace :=
  match valid_actions action, release_button action with
  | some press, some release =>
    some
      { pressEvents :=
          [press] ++ (if action == "jump" then [.PRESS_ARROW_RIGHT] else [])
        holdSteps := tick_count.getD act_freq
        releaseEvents :=
          [release] ++ (if action == "jump" then [.PRESS_ARROW_RIGHT] else []) }
  | _, _ => none

/-! ## Decision engine (`MarioExpert.choose_action`) -/

/-- Result of one `choose_action` call: `.ok (st, tick)` is a normal return
of `tick_count` with the mutated agent state; `.error st` is a raised
exception with the state as mutated before the raise. -/
abbrev CAResult := Except ExpertState (ExpertState × Option Nat)

/-- The state after `is_enemy_near()` has appended this cycle's tracked
enemies to `self.enemies`. -/
def augmentEnemies (st : ExpertState) (s : Snapshot) : ExpertState :=
  { st with enemies := st.enemies ++ nearEnemies s.objTable }

/-- The trailing lines of `choose_action`: clear `self.enemies`, record
`prevX = mario_pos.x` (an attribute access that raises when the glyph scan
returned the integer `-1`), and set `above_ground = False`; then return
`tick_count`. -/
def finishCycle (mp : Option Coordinate) (st : ExpertState)
    (t : Option Nat) : CAResult :=
  match mp with
  | none => .error st
  | some p =>
    .ok ({ st with enemies := [], prevX := p.x, above_ground := false }, t)

/-- Guard of rule 2: `is_enemy_front(coord, 40)` over this cycle's enemy
list. -/
def rule2Guard (s : Snapshot) (st : ExpertState) : Bool :=
  is_enemy_front (augmentEnemies st s).enemies (get_mario_pos s) 40

/-- Guard of rule 3 with Python short-circuit:
`self.stuck and self.is_stair(...)`. -/
def rule3Guard (s : Snapshot) (st : ExpertState) : Option Bool :=
  if st.stuck then is_stair s.gameArea (get_mario_in_game_area s.gameArea)
  else some false

/-- Guard of rule 4 with Python short-circuit:
`not self.stuck and self.is_stuck(...)`. -/
def rule4Guard (s : Snapshot) (st : ExpertState) : Option Bool :=
  if st.stuck then some false
  else is_stuck s (get_mario_in_game_area s.gameArea)

/-- Guard of rule 6 with Python short-circuit:
`self.above_ground and self.is_block_ending(...)`. -/
def rule6Guard (s : Snapshot) (st : ExpertState) : Option Bool :=
  if st.above_ground then
    is_block_ending s.gameArea (get_mario_in_game_area s.gameArea)
  else some false

/-- The body of rule 7 (`is_obstacle_ahead_in_distance(..., 4)` held):
enemy-above check, the distance-3 refinement, the
`get_obstacle_height() > 3` comparison (which raises a `TypeError` when the
height scan fell through to `None`), and the jump-safety split. -/
def rule7Branch (s : Snapshot) (stA : ExpertState) : CAResult :=
  if is_enemy_up stA.enemies (get_mario_pos s) 40 then
    finishCycle (get_mario_in_game_area s.gameArea)
      { stA with actions := stA.actions ++ ["left"] } (some 30)
  else
    match is_obstacle_ahead_in_distance s.gameArea
        (get_mario_in_game_area s.gameArea) 3 with
    | none => .error stA
    | some false =>
      finishCycle (get_mario_in_game_area s.gameArea) { stA with actions := stA.actions ++ ["right"] }
        (some 15)
    | some true =>
      match get_obstacle_height s with
      | none => .error stA
      | some none => .error stA
      | some (some h) =>
        if 3 < h then
          finishCycle (get_mario_in_game_area s.gameArea) { stA with actions := stA.actions ++ ["left"] }
            (some 30)
        else
          match is_jump_safe s (get_mario_in_game_area s.gameArea) with
          | none => .error stA
          | some true =>
            finishCycle (get_mario_in_game_area s.gameArea)
              { stA with actions := stA.actions ++ ["jump", "right"] }
              (some 30)
          | some false =>
            finishCycle (get_mario_in_game_area s.gameArea) { stA with actions := stA.actions ++ ["left"] }
              (some 10)

/-- `choose_action`: record this cycle's enemies, then walk the priority
rule chain; the first matching rule appends its action(s) and sets
`tick_count` and the cross-cycle flags; finally run the trailing resets and
return `tick_count`. -/
def chooseAction (s : Snapshot) (st : ExpertState) : CAResult :=
  let stA := augmentEnemies st s
  if 2450 ≤ s.marioX then
    finishCycle (get_mario_in_game_area s.gameArea) { stA with actions := stA.actions ++ ["right"] } none
  else if rule2Guard s st then
    finishCycle (get_mario_in_game_area s.gameArea) { stA with actions := stA.actions ++ ["jump"] } (some 15)
  else
    match rule3Guard s st with
    | none => .error stA
    | some true =>
      finishCycle (get_mario_in_game_area s.gameArea)
        { stA with
            actions := stA.actions ++ ["left", "jump"]
            stuck := false } none
    | some false =>
      match rule4Guard s st with
      | none => .error stA
      | some true =>
        finishCycle (get_mario_in_game_area s.gameArea)
          { stA with
              actions := stA.actions ++ ["left"]
              stuck := true }
          (some 30)
      | some false =>
        match is_moving_enemy_front s.gameArea (get_mario_in_game_area s.gameArea) with
        | none => .error stA
        | some true =>
          match is_jump_safe s (get_mario_in_game_area s.gameArea) with
          | none => .error stA
          | some true =>
            finishCycle (get_mario_in_game_area s.gameArea) { stA with actions := stA.actions ++ ["jump"] }
              (some 15)
          | some false =>
            finishCycle (get_mario_in_game_area s.gameArea) { stA with actions := stA.actions ++ ["left"] }
              (some 30)
        | some false =>
          match rule6Guard s st with
          | none => .error stA
          | some true =>
            finishCycle (get_mario_in_game_area s.gameArea) { stA with actions := stA.actions ++ ["jump"] }
              (some 20)
          | some false =>
            match is_obstacle_ahead_in_distance s.gameArea (get_mario_in_game_area s.gameArea) 4 with
            | none => .error stA
            | some true => rule7Branch s stA
            | some false =>
              match is_jumpable_block_ahead s (get_mario_in_game_area s.gameArea) with
              | none => .error stA
              | some true =>
                finishCycle (get_mario_in_game_area s.gameArea)
                  { stA with
                      actions := stA.actions ++ ["jump"]
                      above_ground := true } (some 15)
              | some false =>
                match is_gap_ahead s.gameArea (get_mario_in_game_area s.gameArea) with
                | none => .error stA
                | some true =>
                  finishCycle (get_mario_in_game_area s.gameArea)
                    { stA with actions := stA.actions ++ ["jump"] }
                    (some 50)
                | some false =>
                  match is_enemy_below s.gameArea (get_mario_in_game_area s.gameArea) with
                  | none => .error stA
                  | some true =>
                    finishCycle (get_mario_in_game_area s.gameArea)
                      { stA with actions := stA.actions ++ ["jump"] }
                      (some 15)
                  | some false =>
                    finishCycle (get_mario_in_game_area s.gameArea)
                      { stA with actions := stA.actions ++ ["right"] }
                      (some 15)

/-! ## Control loop step (`MarioExpert.step`) -/

/-- Outcome of one `MarioExpert.step()` call. -/
inductive StepOutcome where
  /-- The queue was empty: one `choose_action` cycle ran and returned. -/
  | decided (st : ExpertState) (ret : Option Nat)
  /-- The queue was empty and `choose_action` raised. -/
  | decideError (st : ExpertState)
  /-- A queued action was popped and `run_action` was invoked on it. -/
  | executed (st : ExpertState) (trace : Option RunTrace)
deriving DecidableEq, Repr

/-- `step()`: the local `tick_count` starts as `None`; with an empty queue
one decision cycle runs (its return value assigned to the local and then
discarded); otherwise the head action is popped and `run_action` is called
with the local `tick_count` — which on this branch is still `None`. -/
def step (act_freq : Nat) (s : Snapshot) (st : ExpertState) : StepOutcome :=
  match st.actions with
  | [] =>
    match chooseAction s st with
    | .ok (st', ret) => .decided st' ret
    | .error st' => .decideError st'
  | a :: rest =>
    .executed { st with actions := rest } (run_action act_freq a none)

/-! ## Structural validity of a snapshot -/

/-- Legal tile codes: empty, player glyph, solid blocks 10/14, special
blocks 12/13, ground hazard 15, airborne hazard 18. -/
def legalCode (c : Nat) : Bool :=
  c == 0 || c == 1 || c == 10 || c == 12 || c == 13 || c == 14 || c == 15 ||
    c == 18

/-- Structurally valid `TileGrid`: 16 rows of 20 columns, legal tile codes,
and the player glyph appearing at most once. -/
def validGrid (ga : List (List Nat)) : Bool :=
  ga.length == 16 && ga.all (fun r => r.length == 20) &&
    ga.all (fun r => r.all legalCode) &&
    decide ((ga.map (fun r => (r.filter (fun c => c == 1)).length)).sum ≤ 1)

/-- Structurally valid snapshot: valid grid and a full 10-slot object
table. -/
def validSnapshot (s : Snapshot) : Bool :=
  validGrid s.gameArea && s.objTable.length == 10

/-! ## Concrete snapshots used as test inputs -/

/-- An all-empty 20-column row. -/
def emptyRow : List Nat := List.replicate 20 0

/-- A 20-column floor row of solid blocks (code 14). -/
def floorRow : List Nat := List.replicate 20 14

/-- A 16x20 all-empty grid. -/
def emptyGrid : List (List Nat) := List.replicate 16 emptyRow

/-- A 10-slot object table holding no tracked entity (type byte 0xFF). -/
def blankTable : List ObjSlot := List.replicate 10 ⟨0xFF, 0, 0⟩

/-- A snapshot from a grid: scroll x 0, raw player bytes 0, blank object
table, grounded (on-ground flag 1). -/
def mkSnap (ga : List (List Nat)) : Snapshot :=
  { gameArea := ga, marioX := 0, rawMarioX := 0, rawMarioY := 0,
    objTable := blankTable, onGroundFlag := 1 }

/-- Boxed-in grid: glyph at (8,5), blocks at [8][7], [10][7], [9][13]
(the `is_stuck` signature for grid position (6,9)), floor at row 15. -/
def boxedGrid : List (List Nat) :=
  ((((emptyGrid.set 8 ((emptyRow.set 5 1).set 7 10)).set 9
        (emptyRow.set 13 10)).set 10
      (emptyRow.set 7 10)).set 15 floorRow)

/-- Snapshot of the boxed-in grid. -/
def boxedSnap : Snapshot := mkSnap boxedGrid

/-- Climbable-block grid: glyph at (8,5) and a special block (code 13) at
[6][10], which is cell `[y-3][x+4]` for grid position (6,9); floor at
row 15. -/
def climbGrid : List (List Nat) :=
  ((emptyGrid.set 8 (emptyRow.set 5 1)).set 6 (emptyRow.set 10 13)).set 15
    floorRow

/-- Snapshot of the climbable-block grid. -/
def climbSnap : Snapshot := mkSnap climbGrid

/-- Grid with the glyph at (8,12), i.e. grid position (13,9): the forward
window of `is_moving_enemy_front` reaches columns 20 and 21. -/
def rightEdgeGrid : List (List Nat) :=
  (emptyGrid.set 8 (emptyRow.set 12 1)).set 15 floorRow

/-- Grid with the glyph at (14,5), i.e. grid position (6,15): the downward
window of `is_enemy_below` reaches rows 16 and 17. -/
def lowGrid : List (List Nat) :=
  emptyGrid.set 14 (emptyRow.set 5 1)

/-- Grid with the glyph on the bottom row (15,5), i.e. grid position
(6,16): `get_ground_y` is 18 and `is_up_clear` reads row 16. -/
def bottomGrid : List (List Nat) :=
  emptyGrid.set 15 (emptyRow.set 5 1)

/-- Snapshot of `bottomGrid`. -/
def bottomSnap : Snapshot := mkSnap bottomGrid

/-- Grid satisfying both the rule-7 obstacle condition and the rule-9 gap
condition for glyph (8,5): a block at [8][9] (column `x+3` of the
distance-4 band, outside the distance-3 band) and an empty floor row. -/
def obstacleGapGrid : List (List Nat) :=
  emptyGrid.set 8 ((emptyRow.set 5 1).set 9 10)

/-- Snapshot of `obstacleGapGrid`. -/
def obstacleGapSnap : Snapshot := mkSnap obstacleGapGrid

/-- Grid whose column 5 is solid blocks from row 1 up to row 6, with the
glyph at (5,4): `get_obstacle_height` scans column `x = 5` for rows
`y = 6` down to 1 and finds a block every time, so its loop completes
without returning. -/
def tallWallGrid : List (List Nat) :=
  ((((((emptyGrid.set 1 (emptyRow.set 5 10)).set 2
            (emptyRow.set 5 10)).set 3
          (emptyRow.set 5 10)).set 4
        (emptyRow.set 5 10)).set 5
      ((emptyRow.set 4 1).set 5 10)).set 6
    (emptyRow.set 5 10)).set 15 floorRow

/-- Snapshot of `tallWallGrid`. -/
def tallWallSnap : Snapshot := mkSnap tallWallGrid

/-- A plain grid: glyph at (8,5), solid floor, nothing else. -/
def plainGrid : List (List Nat) :=
  (emptyGrid.set 8 (emptyRow.set 5 1)).set 15 floorRow

/-- Snapshot of `plainGrid`. -/
def plainSnap : Snapshot := mkSnap plainGrid

/-- Grid with the glyph on row 0: `get_ground_y` returns 0 + 2. -/
def topGlyphGrid : List (List Nat) :=
  emptyGrid.set 0 (emptyRow.set 0 1)

/-- Object table whose first slot matches GOOMBA (type 0) with position
bytes y = 1, x = 0, so `get_obj_pos` returns the sentinel despite the
match. -/
def originTable : List ObjSlot :=
  ⟨0x00, 1, 0⟩ :: List.replicate 9 ⟨0xFF, 0, 0⟩

/-- Object table whose first slot matches NOKOBON (type 4) with position
bytes y = 7, x = 3. -/
def presentTable : List ObjSlot :=
  ⟨0x04, 7, 3⟩ :: List.replicate 9 ⟨0xFF, 0, 0⟩

/-- Stated from the claim's wording for comparison with `get_ground_y`:
the index of the first row, scanning the grid top-down, containing the
glyph the scan targets (code 1); `none` when no row contains it. -/
def firstGlyphRow : List (List Nat) → Option Nat
  | [] => none
  | row :: rest =>
    if row.any (fun c => c == 1) then some 0
    else (firstGlyphRow rest).map (· + 1)

/-! ## Helper lemmas -/

theorem glyphIdxInRow_isSome (row : List Nat) :
    (glyphIdxInRow row).isSome = row.any (fun c => c == 1) := by
  induction row with
  | nil => rfl
  | cons c rest ih =>
    by_cases hc : c == 1
    · simp [glyphIdxInRow, hc]
    · simp only [glyphIdxInRow, hc, if_false, List.any_cons, Bool.false_or]
      rw [← ih]
      cases glyphIdxInRow rest <;> rfl

theorem findGlyph_fst (ga : List (List Nat)) :
    (findGlyph ga).map Prod.fst = firstGlyphRow ga := by
  induction ga with
  | nil => rfl
  | cons row rest ih =>
    simp only [findGlyph, firstGlyphRow]
    cases hg : glyphIdxInRow row with
    | some j =>
      have hrow : row.any (fun c => c == 1) = true := by
        rw [← glyphIdxInRow_isSome, hg]; rfl
      simp [hrow]
    | none =>
      have hrow : row.any (fun c => c == 1) = false := by
        rw [← glyphIdxInRow_isSome, hg]; rfl
      rw [hrow]
      simp only [if_false, ← ih]
      cases findGlyph rest <;> rfl

theorem finishCycle_ok_fields {mp : Option Coordinate} {st2 st' : ExpertState}
    {t0 t : Option Nat} (h : finishCycle mp st2 t0 = .ok (st', t)) :
    st'.actions = st2.actions ∧ st'.stuck = st2.stuck ∧
      st'.above_ground = false ∧ st'.enemies = [] ∧ t = t0 := by
  unfold finishCycle at h
  cases mp with
  | none => exact absurd h (by simp)
  | some p =>
    simp only [Except.ok.injEq, Prod.mk.injEq] at h
    obtain ⟨h1, h2⟩ := h
    subst h1; subst h2
    exact ⟨rfl, rfl, rfl, rfl, rfl⟩

theorem finishCycle_error_state {mp : Option Coordinate} {st2 st_e : ExpertState}
    {t0 : Option Nat} (h : finishCycle mp st2 t0 = .error st_e) :
    st_e = st2 ∧ mp = none := by
  unfold finishCycle at h
  cases mp with
  | none =>
    simp only [Except.error.injEq] at h
    exact ⟨h.symm, rfl⟩
  | some p => exact absurd h (by simp)

theorem is_stair_mp_some {ga : List (List Nat)} {mp : Option Coordinate}
    {b : Bool} (h : is_stair ga mp = some b) : ∃ p, mp = some p := by
  cases mp with
  | none => exact absurd h (by simp [is_stair])
  | some p => exact ⟨p, rfl⟩

theorem augmentEnemies_actions (st : ExpertState) (s : Snapshot) :
    (augmentEnemies st s).actions = st.actions := rfl

theorem augmentEnemies_stuck (st : ExpertState) (s : Snapshot) :
    (augmentEnemies st s).stuck = st.stuck := rfl

theorem length_lt_append {l m : List α} (hm : m ≠ []) :
    l.length < (l ++ m).length := by
  rw [List.length_append]
  cases m with
  | nil => exact absurd rfl hm
  | cons a m' => simp

theorem rule7Branch_ok_fields {s : Snapshot} {stA st' : ExpertState}
    {t : Option Nat} (h : rule7Branch s stA = .ok (st', t)) :
    stA.actions.length < st'.actions.length ∧ st'.stuck = stA.stuck ∧
      t ≠ some 50 := by
  unfold rule7Branch at h
  repeat' split at h
  all_goals first
    | exact Except.noConfusion h
    | (obtain ⟨ha, hs, -, -, ht⟩ := finishCycle_ok_fields h;
       subst ht;
       exact ⟨by rw [ha]; exact length_lt_append (by simp), hs, by simp⟩)

theorem rule7Branch_error_stuck {s : Snapshot} {stA st_e : ExpertState}
    (h : rule7Branch s stA = .error st_e) : st_e.stuck = stA.stuck := by
  unfold rule7Branch at h
  repeat' split at h
  all_goals first
    | (obtain ⟨he, -⟩ := finishCycle_error_state h; subst he; rfl)
    | (simp only [Except.error.injEq] at h; subst h; rfl)

theorem chooseAction_ok_appends {s : Snapshot} {st st' : ExpertState}
    {t : Option Nat} (h : chooseAction s st = .ok (st', t)) :
    st.actions.length < st'.actions.length := by
  unfold chooseAction at h
  simp only at h
  repeat' split at h
  all_goals try exact Except.noConfusion h
  any_goals exact (rule7Branch_ok_fields h).1
  all_goals
    (obtain ⟨ha, -, -, -, -⟩ := finishCycle_ok_fields h;
     rw [ha];
     exact length_lt_append (by simp))

theorem stuck_or_of_eq {x y : Bool} {C : Prop} (h1 : x = y)
    (h2 : y = true) : x = true ∨ C :=
  Or.inl (h1.trans h2)

/-! ## Claim theorems -/

/-- C1: on the boxed-in snapshot, `choose_action` enqueues `"left"` with the
explicit hold-duration 30 (rule 4) and returns it; but when `step` later
dequeues and runs that action, it passes `tick_count = None` (its own fresh
local) to `run_action`, so the hold resolves to the configured
`act_freq = 15` simulation steps, not the 30 the decision engine chose. -/
theorem C1_explicit_duration_discarded :
    chooseAction boxedSnap initState =
      .ok ({ actions := ["left"], enemies := [], above_ground := false,
             stuck := true, prevX := 6 }, some 30) ∧
    step 15 boxedSnap
        { actions := ["left"], enemies := [], above_ground := false,
          stuck := true, prevX := 6 } =
      .executed
        { actions := [], enemies := [], above_ground := false,
          stuck := true, prevX := 6 }
        (some { pressEvents := [.PRESS_ARROW_LEFT], holdSteps := 15,
                releaseEvents := [.RELEASE_ARROW_LEFT] }) ∧
    (15 : Nat) ≠ 30 :=
  ⟨rfl, rfl, by decide⟩

/-- C2: on the climbable-block snapshot rule 8 fires
(`is_jumpable_block_ahead` holds) and sets `above_ground`, yet the state
returned by `choose_action` has `above_ground = false`: the cycle-end reset
is unconditional, so rule 6 can never observe the flag on the next cycle.
The enemy list is cleared and `stuck` is untouched, as the eval shows. -/
theorem C2_above_ground_reset_unconditionally :
    is_jumpable_block_ahead climbSnap (get_mario_in_game_area climbGrid) =
      some true ∧
    chooseAction climbSnap initState =
      .ok ({ actions := ["jump"], enemies := [], above_ground := false,
             stuck := false, prevX := 6 }, some 15) :=
  ⟨rfl, rfl⟩

/-- C3: `run_action` on `"jump"` presses A together with right, holds, then
dispatches `RELEASE_BUTTON_A` together with `PRESS_ARROW_RIGHT` — the
release phase presses right a second time instead of releasing it, so the
secondary right button never receives its release. -/
theorem C3_jump_release_presses_right_again :
    run_action 15 "jump" none =
      some { pressEvents := [.PRESS_BUTTON_A, .PRESS_ARROW_RIGHT],
             holdSteps := 15,
             releaseEvents := [.RELEASE_BUTTON_A, .PRESS_ARROW_RIGHT] } ∧
    (run_action 15 "jump" none).map
        (fun tr => tr.releaseEvents.contains WEvent.RELEASE_ARROW_RIGHT) =
      some false ∧
    (run_action 15 "jump" none).map
        (fun tr => tr.releaseEvents.contains WEvent.PRESS_ARROW_RIGHT) =
      some true :=
  ⟨rfl, rfl, rfl⟩

/-- C4: the spatial predicates perform no bounds validation.  On the
structurally valid grid with the player glyph at row 8, column 12 (grid
position (13,9)), `is_moving_enemy_front` indexes columns 20 and 21 of a
20-column row and raises `IndexError` (modelled `none`); on the valid grid
with the glyph at row 14 (grid position (6,15)), `is_enemy_below` indexes
row 16 of the 16-row grid and raises. -/
theorem C4_predicates_index_out_of_bounds :
    validGrid rightEdgeGrid = true ∧
    get_mario_in_game_area rightEdgeGrid = some ⟨13, 9⟩ ∧
    is_moving_enemy_front rightEdgeGrid
        (get_mario_in_game_area rightEdgeGrid) = none ∧
    validGrid lowGrid = true ∧
    get_mario_in_game_area lowGrid = some ⟨6, 15⟩ ∧
    is_enemy_below lowGrid (get_mario_in_game_area lowGrid) = none :=
  ⟨rfl, rfl, rfl, rfl, rfl, rfl⟩

/-- C10: on the structurally valid tall-wall snapshot the player's scan
column holds blocks from the player's row up through row 1, so
`get_obstacle_height`'s loop completes without executing any `return`
(Python `None`, modelled `some none`); rule 7's guards hold, so
`choose_action` reaches the `get_obstacle_height() > 3` comparison and
raises there, having enqueued nothing. -/
theorem C10_obstacle_height_returns_none :
    validSnapshot tallWallSnap = true ∧
    get_obstacle_height tallWallSnap = some none ∧
    is_obstacle_ahead_in_distance tallWallGrid
        (get_mario_in_game_area tallWallGrid) 4 = some true ∧
    is_obstacle_ahead_in_distance tallWallGrid
        (get_mario_in_game_area tallWallGrid) 3 = some true ∧
    chooseAction tallWallSnap initState = .error initState :=
  ⟨rfl, rfl, rfl, rfl, rfl⟩

/-- C5 counterexample: the bottom-row snapshot is structurally valid, yet
`choose_action` raises (the rule-4 guard's `is_up_clear` indexes row 16)
before any branch body runs, so no action at all is appended. -/
theorem C5_counterexample_no_action_enqueued :
    validSnapshot bottomSnap = true ∧
    chooseAction bottomSnap initState = .error initState ∧
    initState.actions = [] :=
  ⟨rfl, rfl, rfl⟩

/-- C5 amended: whenever `choose_action` completes without raising, the
action queue strictly grows — every branch of the rule chain, including the
final catch-all, appends at least one action. -/
theorem C5_completed_cycle_enqueues (s : Snapshot) (st st' : ExpertState)
    (t : Option Nat) (h : chooseAction s st = .ok (st', t)) :
    st.actions.length < st'.actions.length :=
  chooseAction_ok_appends h

/-- Witness for C5: on the plain snapshot the default rule completes and
the queue grows from 0 to 1. -/
theorem C5_completed_cycle_enqueues_witness :
    initState.actions.length <
      ({ actions := ["right"], enemies := [], above_ground := false,
         stuck := false, prevX := 6 } : ExpertState).actions.length :=
  C5_completed_cycle_enqueues plainSnap initState
    { actions := ["right"], enemies := [], above_ground := false,
      stuck := false, prevX := 6 } (some 15) rfl

/-- C6 counterexample: the first slot of `originTable` matches kind 0, yet
`get_obj_pos` returns the sentinel `(0,0)` (the stored bytes are y = 1,
x = 0, and the adjustment `(x, y-1)` collides with the sentinel), so
"returns `(0,0)` if and only if no slot matches" is false. -/
theorem C6_counterexample_match_reported_as_absent :
    get_obj_pos originTable 0 = ⟨0, 0⟩ ∧
    (originTable.take 10).find? (fun slot => slot.objType == 0) =
      some ⟨0, 1, 0⟩ ∧
    originTable.length = 10 :=
  ⟨rfl, rfl, rfl⟩

/-- C6 amended: `get_obj_pos` returns `(0,0)` when no slot of the 10-slot
table matches; when a slot matches it returns `(x, y-1)` of the first
matching slot, which coincides with the sentinel exactly for stored bytes
x = 0, y = 1 — any first match with other bytes is never reported as
absent. -/
theorem C6_sentinel_amended (table : List ObjSlot) (req : Nat) :
    ((table.take 10).find? (fun slot => slot.objType == req) = none →
      get_obj_pos table req = ⟨0, 0⟩) ∧
    (∀ slot,
      (table.take 10).find? (fun slot => slot.objType == req) = some slot →
      get_obj_pos table req = ⟨(slot.xbyte : Int), (slot.ybyte : Int) - 1⟩ ∧
      (slot.xbyte ≠ 0 ∨ slot.ybyte ≠ 1 →
        get_obj_pos table req ≠ ⟨0, 0⟩)) := by
  constructor
  · intro h
    unfold get_obj_pos
    rw [h]
  · intro slot hfind
    have hval : get_obj_pos table req =
        ⟨(slot.xbyte : Int), (slot.ybyte : Int) - 1⟩ := by
      unfold get_obj_pos
      rw [hfind]
    refine ⟨hval, fun hne hzero => ?_⟩
    rw [hval] at hzero
    injection hzero with hx hy
    rcases hne with hne | hne
    · exact hne (by omega)
    · exact hne (by omega)

/-- Witness for C6: a table whose first slot matches kind 4 with bytes
y = 7, x = 3 is reported at `(3, 6)`, not as absent. -/
theorem C6_sentinel_amended_witness :
    get_obj_pos presentTable 4 ≠ ⟨0, 0⟩ :=
  ((C6_sentinel_amended presentTable 4).2 ⟨0x04, 7, 3⟩ rfl).2
    (Or.inl (by decide))

/-- C8 counterexample: on the grid whose glyph sits in row 0,
`get_ground_y` returns 2, while the index of the first row containing the
scanned glyph is 0 — the function does not return that row index. -/
theorem C8_counterexample_offset_by_two :
    get_ground_y topGlyphGrid = 2 ∧
    firstGlyphRow topGlyphGrid = some 0 ∧
    (2 : Int) ≠ 0 :=
  ⟨rfl, rfl, by decide⟩

/-- C8 amended: `get_ground_y` returns 2 plus the index of the first row
(top-down scan) containing the glyph code 1 — the row two below the player
glyph, not the row index itself — and the sentinel -1 when no row contains
the glyph. -/
theorem C8_ground_level_amended (ga : List (List Nat)) :
    (firstGlyphRow ga = none → get_ground_y ga = -1) ∧
    (∀ i, firstGlyphRow ga = some i → get_ground_y ga = (i : Int) + 2) := by
  have hfst := findGlyph_fst ga
  constructor
  · intro h
    rw [h] at hfst
    unfold get_ground_y
    cases hg : findGlyph ga with
    | none => rfl
    | some p => rw [hg] at hfst; exact absurd hfst (by simp)
  · intro i h
    rw [h] at hfst
    unfold get_ground_y
    cases hg : findGlyph ga with
    | none => rw [hg] at hfst; exact absurd hfst (by simp)
    | some p =>
      rw [hg] at hfst
      simp only [Option.map_some'] at hfst
      injection hfst with hfst
      simp only [hfst]

/-- Witness for C8: on the row-0-glyph grid the amended description gives
`get_ground_y = 0 + 2`. -/
theorem C8_ground_level_amended_witness :
    get_ground_y topGlyphGrid = (0 : Int) + 2 :=
  (C8_ground_level_amended topGlyphGrid).2 0 rfl

/-- C7: on any snapshot where rules 1-6 do not fire and the rule-7 obstacle
condition `obstacle_ahead(4)` holds, `choose_action` resolves to the
obstacle branch — even when the rule-9 gap condition holds simultaneously —
and its returned hold-duration is never the gap rule's 50: rules are
evaluated in fixed priority order and the first match wins. -/
theorem C7_obstacle_rule_beats_gap_rule (s : Snapshot) (st : ExpertState)
    (h1 : s.marioX < 2450)
    (h2 : rule2Guard s st = false)
    (h3 : rule3Guard s st = some false)
    (h4 : rule4Guard s st = some false)
    (h5 : is_moving_enemy_front s.gameArea
        (get_mario_in_game_area s.gameArea) = some false)
    (h6 : rule6Guard s st = some false)
    (h7 : is_obstacle_ahead_in_distance s.gameArea
        (get_mario_in_game_area s.gameArea) 4 = some true)
    (h9 : is_gap_ahead s.gameArea (get_mario_in_game_area s.gameArea) =
        some true) :
    chooseAction s st = rule7Branch s (augmentEnemies st s) ∧
    ∀ st' t, chooseAction s st = .ok (st', t) → t ≠ some 50 := by
  have hchain : chooseAction s st = rule7Branch s (augmentEnemies st s) := by
    unfold chooseAction
    simp [h2, h3, h4, h5, h6, h7, Nat.not_le.mpr h1]
  exact ⟨hchain,
    fun st' t hok => (rule7Branch_ok_fields (hchain.symm.trans hok)).2.2⟩

/-- Witness for C7: the obstacle-plus-gap snapshot satisfies every guard
hypothesis and resolves to the obstacle branch. -/
theorem C7_obstacle_rule_beats_gap_rule_witness :
    chooseAction obstacleGapSnap initState =
      rule7Branch obstacleGapSnap (augmentEnemies initState obstacleGapSnap) :=
  (C7_obstacle_rule_beats_gap_rule obstacleGapSnap initState (by decide)
    rfl rfl rfl rfl rfl rfl rfl).1

/-- C9: with `stuck` already set, the rule-4 guard is `False` (it requires
`stuck` to be false), so rule 4 never re-fires; `stuck` survives every
cycle — raising or completing — except a completion in which the rule-3
recovery stair signature held; and on a boxed-in snapshot (stair signature
present, rules 1-2 silent) the cycle still completes, enqueues the two
recovery actions, and clears `stuck`. -/
theorem C9_stuck_hysteresis (s : Snapshot) (st : ExpertState)
    (hstuck : st.stuck = true) :
    rule4Guard s st = some false ∧
    (∀ st_e, chooseAction s st = .error st_e → st_e.stuck = true) ∧
    (∀ st' t, chooseAction s st = .ok (st', t) →
      st'.stuck = true ∨
        is_stair s.gameArea (get_mario_in_game_area s.gameArea) =
          some true) ∧
    (s.marioX < 2450 → rule2Guard s st = false →
      is_stair s.gameArea (get_mario_in_game_area s.gameArea) = some true →
      ∃ st', chooseAction s st = .ok (st', none) ∧
        st'.actions = st.actions ++ ["left", "jump"] ∧
        st'.stuck = false) := by
  refine ⟨by simp [rule4Guard, hstuck], ?_, ?_, ?_⟩
  · intro st_e h
    unfold chooseAction at h
    simp only at h
    repeat' split at h
    all_goals try exact Except.noConfusion h
    any_goals exact (rule7Branch_error_stuck h).trans hstuck
    any_goals (injection h with he; rw [← he]; exact hstuck)
    any_goals
      (obtain ⟨he, -⟩ := finishCycle_error_state h; subst he; exact hstuck)
    any_goals
      (obtain ⟨he, -⟩ := finishCycle_error_state h; subst he; rfl)
    all_goals
      (obtain ⟨he, hmp⟩ := finishCycle_error_state h;
       subst he;
       simp_all [rule3Guard, is_stair])
  · intro st' t h
    unfold chooseAction at h
    simp only at h
    repeat' split at h
    all_goals try exact Except.noConfusion h
    any_goals exact stuck_or_of_eq (rule7Branch_ok_fields h).2.1 hstuck
    all_goals
      (obtain ⟨-, hs, -, -, -⟩ := finishCycle_ok_fields h;
       simp_all [rule3Guard, augmentEnemies])
  · intro h1 h2 h3
    obtain ⟨p, hp⟩ := is_stair_mp_some h3
    have hg3 : rule3Guard s st = some true := by
      simp [rule3Guard, hstuck, h3]
    refine ⟨⟨st.actions ++ ["left", "jump"], [], false, false, p.x⟩, ?_,
      rfl, rfl⟩
    unfold chooseAction
    simp [hg3, h2, Nat.not_le.mpr h1, hp, finishCycle, augmentEnemies]

/-- Witness for C9: on the boxed-in snapshot with `stuck` set, the rule-4
guard evaluates to `False`. -/
theorem C9_stuck_hysteresis_witness :
    rule4Guard boxedSnap { initState with stuck := true } = some false :=
  (C9_stuck_hysteresis boxedSnap { initState with stuck := true } rfl).1

end MarioModel

